import Mathlib

/-!
Verification development for the CekFakta text-analysis service
(`src/services/ai_service.py` and `src/app.py`).

The two external Azure clients (Text Analytics for sentiment and language
detection, OpenAI chat completion) and the standard-library JSON parser are
modelled as oracles collected in a `World` record; a raised exception in an
external call is an `Except.error`.  The Python result dictionaries are
association lists of string keys to a `JValue` (a model of the dynamic values
Python places in those dictionaries).  `round` on the float confidence scores
is modelled as exact rational rounding to two decimals; no claim depends on
the numeric values of the scores.
-/

/-- Dynamic value stored in a Python dictionary / produced by `json.loads`. -/
inductive JValue where
  | str : String → JValue
  | num : Rat → JValue
  | bool : Bool → JValue
  | null : JValue
  | arr : List JValue → JValue
  | obj : List (String × JValue) → JValue

/-- A Python result dictionary: association list with distinct keys
(insertion order preserved, as in Python dicts). -/
abbrev RDict := List (String × JValue)

/-- First-match association lookup (keys of the dictionaries built by the
service are distinct, so this is Python dict lookup). -/
def jLookup : List (String × JValue) → String → Option JValue
  | [], _ => none
  | (k, v) :: rest, key => if k = key then some v else jLookup rest key

/-- Python `key in dict`. -/
def hasKey (r : RDict) (key : String) : Bool :=
  (jLookup r key).isSome

/-- `dict.get(key, default)` on a parsed JSON object. -/
def jGet (fields : List (String × JValue)) (key : String) (d : JValue) : JValue :=
  (jLookup fields key).getD d

/-- Confidence scores of `analyze_sentiment` (floats modelled as rationals). -/
structure SentimentScores where
  positive : Rat
  neutral : Rat
  negative : Rat
deriving DecidableEq

/-- Document result of the Azure `analyze_sentiment` call. -/
structure SentimentResult where
  sentiment : String
  confidence_scores : SentimentScores
deriving DecidableEq

/-- `primary_language` field of the Azure `detect_language` result. -/
structure PrimaryLanguage where
  iso6391_name : String
  name : String
deriving DecidableEq

/-- Document result of the Azure `detect_language` call. -/
structure LanguageResult where
  primary_language : PrimaryLanguage
deriving DecidableEq

/-- Python `round(x, 2)` (float rounding abstracted as exact rational
rounding to two decimal places). -/
def round2 (q : Rat) : Rat :=
  (Int.floor (q * 100 + 1 / 2) : Rat) / 100

/-- Python `str.lower()` (character-wise lowercasing; the texts the service
lowercases are matched against ASCII keywords). -/
def lowerStr (s : String) : String :=
  ⟨s.data.map Char.toLower⟩

/-- Python `str.strip()`: drop leading and trailing whitespace. -/
def trimStr (s : String) : String :=
  ⟨(((s.data.dropWhile Char.isWhitespace).reverse).dropWhile
      Char.isWhitespace).reverse⟩

/-- Substring membership of a list of characters (`pat` occurs in `s`). -/
def leadsWith : List Char → List Char → Bool
  | [], _ => true
  | _ :: _, [] => false
  | p :: ps, c :: cs => p == c && leadsWith ps cs

/-- Occurrence of `pat` anywhere in the character list. -/
def containsChars (pat : List Char) : List Char → Bool
  | [] => leadsWith pat []
  | c :: cs => leadsWith pat (c :: cs) || containsChars pat cs

/-- Python `pat in s` for strings (substring containment). -/
def strContains (s pat : String) : Bool :=
  containsChars pat.toList s.toList

/-- Oracles for the external effects used inside `analyze_text`'s `try`
block: the two Text Analytics calls, the chat-completion call (taking the
system prompt and the user text, returning the reply content), and
`json.loads` (`none` models `json.JSONDecodeError`). -/
structure World where
  getSentiment : Except String SentimentResult
  getLanguage : Except String LanguageResult
  completion : String → String → Except String String
  parseJson : String → Option JValue

/-- Indonesian keyword set of the language-correction heuristic
(`ai_service.py` line 151). -/
def indonesianKeywords : List String :=
  ["anda", "hadiah", "rekening", "jutaan"]

/-- Code-to-name lookup table (`ai_service.py` lines 156-167). -/
def langNameTable : String → Option String
  | "id" => some "Indonesian"
  | "en" => some "English"
  | "fr" => some "French"
  | "es" => some "Spanish"
  | "de" => some "German"
  | "zh" => some "Chinese"
  | "ar" => some "Arabic"
  | "ru" => some "Russian"
  | "ja" => some "Japanese"
  | "ko" => some "Korean"
  | _ => none

/-- Language resolution of `analyze_text` (lines 147-167): lowercase the
detected ISO code, apply the Indonesian-keyword override when the detector
said English, then normalize through the fixed table, falling back to the
detector's own display name for unknown codes. -/
def resolveLanguageName (language_result : LanguageResult) (text : String) : String :=
  let lang_code := lowerStr language_result.primary_language.iso6391_name
  let language_name := language_result.primary_language.name
  let corrected :=
    if lang_code = "en" ∧
        indonesianKeywords.any (fun k => strContains (lowerStr text) k) then
      ("id", "Indonesian")
    else
      (lang_code, language_name)
  (langNameTable corrected.1).getD corrected.2

/-- Text preceding the interpolated `{language_name}` in the `system_prompt`
f-string (lines 170-190; the source file's own characters reproduced,
including its mojibake punctuation). -/
def promptPrefix : String :=
  "\n            You are an AI expert in detecting scam, fraud, hoaxes, and online gambling. Analyze the following text and classify it into one of the categories below:\n\n            1. \"Potential Scam\" ‚Äì if the message offers a prize, an easy job, or asks for personal data.\n            2. \"Online Gambling Promotion\" ‚Äì if the message promotes online gambling or mentions ‚Äúslot gacor‚Äù.\n            3. \"Hoax\" ‚Äì if the message contains misleading or false information.\n            4. \"Safe\" ‚Äì if the message is safe and not harmful.\n\n            Return your response in this JSON format:\n            \x7b\n            \"kategori\": \"category_result\",\n            \"confidence\": \"high/medium/low\",  // Always use English: high/medium/low\n            \"penjelasan\": \"short explanation in the detected language\",\n            \"indikator_bahaya\": [\"list of detected risk indicators\"]\n            \x7d\n\n            ‚ö†Ô∏è Important: Your answer MUST be in language: **"

/-- Text following the interpolated `{language_name}` in the `system_prompt`
f-string. -/
def promptSuffix : String :=
  "**, and always in the JSON format above. Do not add any explanation outside the JSON.\n\n\n            Now analyze the following text:\n            "

/-- The `system_prompt` f-string of `analyze_text` (lines 170-190). -/
def system_prompt (language_name : String) : String :=
  promptPrefix ++ language_name ++ promptSuffix

/-- `sentiment_score` sub-dictionary shared by all three success-shaped
returns of `analyze_text` (lines 216-220, 234-239, 250-254). -/
def sentimentScoreObj (s : SentimentResult) : JValue :=
  JValue.obj
    [("positive", JValue.num (round2 s.confidence_scores.positive)),
     ("neutral", JValue.num (round2 s.confidence_scores.neutral)),
     ("negative", JValue.num (round2 s.confidence_scores.negative))]

/-- Dictionary returned when GPT replies with empty content
(`analyze_text` lines 208-222). -/
def emptyResponseDict (s : SentimentResult) (language_name : String) : RDict :=
  [("error", JValue.str "Model did not respond or returned empty result."),
   ("kategori", JValue.str "Unknown"),
   ("confidence", JValue.str "low"),
   ("penjelasan", JValue.str "Model did not return any response for this input."),
   ("indikator_bahaya", JValue.arr []),
   ("sentiment", JValue.str s.sentiment),
   ("sentiment_score", sentimentScoreObj s),
   ("detected_language", JValue.str language_name)]

/-- Dictionary returned when GPT content does not parse as JSON
(`analyze_text` lines 225-241): the stripped raw content becomes
`penjelasan`. -/
def invalidJsonDict (gpt_raw : String) (s : SentimentResult)
    (language_name : String) : RDict :=
  [("error", JValue.str "Model did not respond in valid JSON format."),
   ("kategori", JValue.str "Unknown"),
   ("confidence", JValue.str "low"),
   ("penjelasan", JValue.str gpt_raw),
   ("indikator_bahaya", JValue.arr []),
   ("sentiment", JValue.str s.sentiment),
   ("sentiment_score", sentimentScoreObj s),
   ("detected_language", JValue.str language_name)]

/-- Final dictionary on a successful JSON parse (`analyze_text` lines
244-256), with the `.get` defaults for missing keys. -/
def successDict (fields : List (String × JValue)) (s : SentimentResult)
    (language_name : String) : RDict :=
  [("kategori", jGet fields "kategori" (JValue.str "Unknown")),
   ("confidence", jGet fields "confidence" (JValue.str "medium")),
   ("penjelasan", jGet fields "penjelasan" (JValue.str "")),
   ("indikator_bahaya", jGet fields "indikator_bahaya" (JValue.arr [])),
   ("sentiment", JValue.str s.sentiment),
   ("sentiment_score", sentimentScoreObj s),
   ("detected_language", JValue.str language_name)]

/-- Dictionary built by the `except` clause of `analyze_text`
(lines 258-264). -/
def exceptionDict (e : String) : RDict :=
  [("error", JValue.str ("An error occurred: " ++ e)),
   ("kategori", JValue.str "Error"),
   ("penjelasan", JValue.str "Unable to analyze text"),
   ("indikator_bahaya", JValue.arr [])]

/-- Body of the `try` block of `analyze_text` (lines 141-256).  An
`Except.error` is an exception escaping the block: a raising external call,
or the `AttributeError` from calling `.get` on a parsed JSON value that is
not a dictionary. -/
def tryAnalyze (w : World) (text : String) : Except String RDict :=
  match w.getSentiment with
  | Except.error e => Except.error e
  | Except.ok sentiment_result =>
    match w.getLanguage with
    | Except.error e => Except.error e
    | Except.ok language_result =>
      let language_name := resolveLanguageName language_result text
      match w.completion (system_prompt language_name) text with
      | Except.error e => Except.error e
      | Except.ok content =>
        let gpt_raw := trimStr content
        if gpt_raw = "" then
          Except.ok (emptyResponseDict sentiment_result language_name)
        else
          match w.parseJson gpt_raw with
          | none =>
              Except.ok (invalidJsonDict gpt_raw sentiment_result language_name)
          | some (JValue.obj fields) =>
              Except.ok (successDict fields sentiment_result language_name)
          | some _ =>
              Except.error "AttributeError: object has no attribute get"

/-- The `try`/`except` pair of `analyze_text`: every exception escaping the
`try` block is converted by the `except` clause into an error dictionary. -/
def dispatchTry (w : World) (text : String) : RDict :=
  match tryAnalyze w text with
  | Except.ok result => result
  | Except.error e => exceptionDict e

/-- `CekFaktaAIService.analyze_text` (lines 120-264): input validation,
then the `try` block with the `except` clause. -/
def analyze_text (w : World) (text : String) : RDict :=
  if text = "" ∨ (trimStr text).length = 0 then
    [("error", JValue.str "Text must not be empty")]
  else if text.length > 1000 then
    [("error", JValue.str "Text is too long (max 1000 characters)")]
  else
    dispatchTry w text

/-- Python `any(c.strip() for c in text)`: some character of `text` is not
whitespace (`app.py` line 68). -/
def hasNonWhitespace (text : String) : Bool :=
  text.toList.any (fun c => !c.isWhitespace)

/-- Status-code and `success`-flag mapping of the `/api/analyze` endpoint
applied to a service result (`app.py` lines 76-95). -/
def mapResult (result : RDict) : Nat × Bool :=
  if hasKey result "error" && hasKey result "penjelasan" then (200, true)
  else if hasKey result "error" then (500, false)
  else (200, true)

/-- The `/api/analyze` endpoint on a string `text` payload (`app.py` lines
62-95): the unicode-aware emptiness check, then the service call and the
result mapping.  Returns (status code, `success` flag). -/
def api_analyze (w : World) (text : String) : Nat × Bool :=
  if !(hasNonWhitespace text) then (400, false)
  else mapResult (analyze_text w text)

/-- First-match lookup in an LRU cache association list (most recently used
entry first). -/
def lruFind {κ β : Type} [DecidableEq κ] : List (κ × β) → κ → Option β
  | [], _ => none
  | (k, v) :: rest, key => if k = key then some v else lruFind rest key

/-- Remove the first entry with the given key from a cache list. -/
def lruRemove {κ β : Type} [DecidableEq κ] : List (κ × β) → κ → List (κ × β)
  | [], _ => []
  | (k, v) :: rest, key =>
      if k = key then rest else (k, v) :: lruRemove rest key

/-- One call through `functools.lru_cache(maxsize)`: on a hit the entry
moves to the most-recently-used position and the wrapped function is not
invoked; on a miss the wrapped function is invoked once, the entry is
inserted, and the least-recently-used entry is evicted beyond capacity.
Returns (value, new cache state, number of wrapped-function invocations). -/
def lruStep {κ β : Type} [DecidableEq κ] (maxsize : Nat) (f : κ → β)
    (cache : List (κ × β)) (key : κ) : β × List (κ × β) × Nat :=
  match lruFind cache key with
  | some v => (v, (key, v) :: lruRemove cache key, 0)
  | none => (f key, ((key, f key) :: cache).take maxsize, 1)

/-- Azure Text Analytics configuration pair used as part of the cache key
(`AzureConfig.AZURE_AI_ENDPOINT`, `AzureConfig.AZURE_AI_API_KEY`). -/
structure AIConfig where
  aiEndpoint : String
  aiKey : String

/-- `CekFaktaAIService._cached_analyze_sentiment` (lines 82-89):
`lru_cache(maxsize=100)` over the transport call, keyed by
`(endpoint, key, text)`. -/
def cached_analyze_sentiment
    (transport : String × String × String → SentimentResult)
    (cache : List ((String × String × String) × SentimentResult))
    (endpoint key text : String) :
    SentimentResult × List ((String × String × String) × SentimentResult) × Nat :=
  lruStep 100 transport cache (endpoint, key, text)

/-- `CekFaktaAIService._get_sentiment` (lines 100-108): the cached call with
the fixed configuration values. -/
def get_sentiment
    (transport : String × String × String → SentimentResult)
    (cfg : AIConfig)
    (cache : List ((String × String × String) × SentimentResult))
    (text : String) :
    SentimentResult × List ((String × String × String) × SentimentResult) × Nat :=
  cached_analyze_sentiment transport cache cfg.aiEndpoint cfg.aiKey text

/-- `CekFaktaAIService._cached_detect_language` (lines 91-98): the language
twin of the sentiment cache. -/
def cached_detect_language
    (transport : String × String × String → LanguageResult)
    (cache : List ((String × String × String) × LanguageResult))
    (endpoint key text : String) :
    LanguageResult × List ((String × String × String) × LanguageResult) × Nat :=
  lruStep 100 transport cache (endpoint, key, text)

/-- `CekFaktaAIService._get_language` (lines 110-118). -/
def get_language
    (transport : String × String × String → LanguageResult)
    (cfg : AIConfig)
    (cache : List ((String × String × String) × LanguageResult))
    (text : String) :
    LanguageResult × List ((String × String × String) × LanguageResult) × Nat :=
  cached_detect_language transport cache cfg.aiEndpoint cfg.aiKey text

/-- Concrete confidence scores used in concrete runs. -/
def sampleScores : SentimentScores := ⟨7 / 10, 2 / 10, 1 / 10⟩

/-- Concrete sentiment document used in concrete runs. -/
def sampleSentiment : SentimentResult := ⟨"neutral", sampleScores⟩

/-- Detector output reporting English. -/
def langEn : LanguageResult := ⟨⟨"en", "English"⟩⟩

/-- A string of `n` copies of the letter a. -/
def longText (n : Nat) : String := ⟨List.replicate n 'a'⟩

/-- World where GPT replies with empty content. -/
def wEmptyReply : World :=
  ⟨Except.ok sampleSentiment, Except.ok langEn,
   fun _ _ => Except.ok "", fun _ => none⟩

/-- World where GPT replies with non-JSON prose. -/
def wInvalidReply : World :=
  ⟨Except.ok sampleSentiment, Except.ok langEn,
   fun _ _ => Except.ok "I cannot help", fun _ => none⟩

/-- World where GPT replies with non-JSON prose carrying surrounding
whitespace. -/
def wPaddedReply : World :=
  ⟨Except.ok sampleSentiment, Except.ok langEn,
   fun _ _ => Except.ok "  I cannot help  ", fun _ => none⟩

/-- World where GPT replies with the JSON object containing only a
`kategori` key. -/
def wSafeJson : World :=
  ⟨Except.ok sampleSentiment, Except.ok langEn,
   fun _ _ => Except.ok "\x7b\"kategori\": \"Safe\"\x7d",
   fun s =>
     if s = "\x7b\"kategori\": \"Safe\"\x7d" then
       some (JValue.obj [("kategori", JValue.str "Safe")])
     else none⟩

/-- World where the sentiment call raises. -/
def wSentimentFail : World :=
  ⟨Except.error "network down", Except.ok langEn,
   fun _ _ => Except.ok "x", fun _ => none⟩

/-- World where the chat-completion call raises. -/
def wCompletionFail : World :=
  ⟨Except.ok sampleSentiment, Except.ok langEn,
   fun _ _ => Except.error "quota exceeded", fun _ => none⟩

/-- Sentiment transport returning a fixed document, for cache runs. -/
def fixedTransport : String × String × String → SentimentResult :=
  fun _ => sampleSentiment

/-- Concrete configuration pair for cache runs. -/
def sampleCfg : AIConfig := ⟨"https://ai.example", "key123"⟩

/-- Validation helper: on non-blank input of at most 1000 characters,
`analyze_text` reaches the `try` block. -/
theorem analyze_text_passes_validation (w : World) (text : String)
    (h1 : (trimStr text).length ≠ 0) (h2 : text.length ≤ 1000) :
    analyze_text w text = dispatchTry w text := by
  unfold analyze_text
  have hor : ¬(text = "" ∨ (trimStr text).length = 0) := by
    rintro (rfl | h0)
    · exact h1 (by decide)
    · exact h1 h0
  rw [if_neg hor, if_neg (by omega : ¬ text.length > 1000)]

/-- C1: the `/api/analyze` endpoint maps a service result holding both an
`error` and a `penjelasan` key to HTTP 200 with `success=true`, and a
result holding `error` without `penjelasan` to HTTP 500 with
`success=false`. -/
theorem endpoint_maps_error_results (w : World) (text : String) :
    (hasKey (analyze_text w text) "error" = true →
      hasKey (analyze_text w text) "penjelasan" = true →
      mapResult (analyze_text w text) = (200, true)) ∧
    (hasKey (analyze_text w text) "error" = true →
      hasKey (analyze_text w text) "penjelasan" = false →
      mapResult (analyze_text w text) = (500, false)) := by
  constructor <;> intro h1 h2 <;> simp [mapResult, h1, h2]

set_option maxRecDepth 100000 in
/-- Witness for C1: a partial-success result (empty GPT reply on valid
text) maps to (200, true); a validation error (1001-character input, a
result with `error` but no `penjelasan`) maps to (500, false). -/
theorem endpoint_maps_error_results_witness :
    mapResult (analyze_text wEmptyReply "halo dunia") = (200, true) ∧
    mapResult (analyze_text wEmptyReply (longText 1001)) = (500, false) :=
  ⟨(endpoint_maps_error_results wEmptyReply "halo dunia").1
      (by decide) (by decide),
   (endpoint_maps_error_results wEmptyReply (longText 1001)).2
      (by decide) (by decide)⟩

/-- C2: blank input (after stripping) is rejected with the emptiness error,
input longer than 1000 characters is rejected with the length error — both
as constant dictionaries independent of the external world, so no external
call is issued — while non-blank input of at most 1000 characters proceeds
past validation into the `try` block. -/
theorem validation_boundary (w w2 : World) (text : String) :
    ((trimStr text).length = 0 →
      analyze_text w text = [("error", JValue.str "Text must not be empty")]) ∧
    ((trimStr text).length ≠ 0 → text.length > 1000 →
      analyze_text w text =
        [("error", JValue.str "Text is too long (max 1000 characters)")]) ∧
    ((trimStr text).length = 0 ∨ text.length > 1000 →
      analyze_text w text = analyze_text w2 text) ∧
    ((trimStr text).length ≠ 0 → text.length ≤ 1000 →
      analyze_text w text = dispatchTry w text) := by
  have reject0 : ∀ w' : World, (trimStr text).length = 0 →
      analyze_text w' text = [("error", JValue.str "Text must not be empty")] := by
    intro w' h
    simp [analyze_text, h]
  have reject1 : ∀ w' : World, (trimStr text).length ≠ 0 → text.length > 1000 →
      analyze_text w' text =
        [("error", JValue.str "Text is too long (max 1000 characters)")] := by
    intro w' h1 h2
    have hor : ¬(text = "" ∨ (trimStr text).length = 0) := by
      rintro (rfl | h0)
      · exact h1 (by decide)
      · exact h1 h0
    simp [analyze_text, hor, h2]
  refine ⟨reject0 w, reject1 w, ?_, analyze_text_passes_validation w text⟩
  rintro (h | h)
  · rw [reject0 w h, reject0 w2 h]
  · by_cases h0 : (trimStr text).length = 0
    · rw [reject0 w h0, reject0 w2 h0]
    · rw [reject1 w h0 h, reject1 w2 h0 h]

set_option maxRecDepth 100000 in
/-- Witness for C2: whitespace-only input is rejected as empty, the
1001-character input is rejected as too long (for any world, here two
different ones), and the 1000-character input proceeds past validation. -/
theorem validation_boundary_witness :
    analyze_text wEmptyReply "   " =
      [("error", JValue.str "Text must not be empty")] ∧
    analyze_text wEmptyReply (longText 1001) =
      [("error", JValue.str "Text is too long (max 1000 characters)")] ∧
    analyze_text wEmptyReply (longText 1001) =
      analyze_text wSentimentFail (longText 1001) ∧
    analyze_text wEmptyReply (longText 1000) =
      dispatchTry wEmptyReply (longText 1000) :=
  ⟨(validation_boundary wEmptyReply wSentimentFail "   ").1 (by decide),
   (validation_boundary wEmptyReply wSentimentFail (longText 1001)).2.1
      (by decide) (by decide),
   (validation_boundary wEmptyReply wSentimentFail (longText 1001)).2.2.1
      (Or.inr (by decide)),
   (validation_boundary wEmptyReply wSentimentFail (longText 1000)).2.2.2
      (by decide) (by decide)⟩

/-- C3: on valid input, when the completion service returns content that is
empty after stripping, `analyze_text` returns (rather than raising) a
dictionary with `error` set, `kategori="Unknown"`, `confidence="low"`,
empty `indikator_bahaya`, and the generic explanation as `penjelasan`. -/
theorem empty_reply_fallback (w : World) (text : String) (s : SentimentResult)
    (l : LanguageResult) (c : String)
    (h1 : (trimStr text).length ≠ 0) (h2 : text.length ≤ 1000)
    (hs : w.getSentiment = Except.ok s) (hl : w.getLanguage = Except.ok l)
    (hc : w.completion (system_prompt (resolveLanguageName l text)) text =
      Except.ok c)
    (h0 : trimStr c = "") :
    analyze_text w text = emptyResponseDict s (resolveLanguageName l text) ∧
    hasKey (analyze_text w text) "error" = true ∧
    jLookup (analyze_text w text) "kategori" = some (JValue.str "Unknown") ∧
    jLookup (analyze_text w text) "confidence" = some (JValue.str "low") ∧
    jLookup (analyze_text w text) "indikator_bahaya" = some (JValue.arr []) ∧
    jLookup (analyze_text w text) "penjelasan" =
      some (JValue.str "Model did not return any response for this input.") := by
  have ht : tryAnalyze w text =
      Except.ok (emptyResponseDict s (resolveLanguageName l text)) := by
    simp [tryAnalyze, hs, hl, hc, h0]
  have hx : analyze_text w text = emptyResponseDict s (resolveLanguageName l text) := by
    rw [analyze_text_passes_validation w text h1 h2]
    simp [dispatchTry, ht]
  rw [hx]
  refine ⟨rfl, ?_, ?_, ?_, ?_, ?_⟩ <;> simp [emptyResponseDict, hasKey, jLookup]

/-- Witness for C3: a concrete valid text with an empty GPT reply. -/
theorem empty_reply_fallback_witness :
    analyze_text wEmptyReply "halo dunia" = emptyResponseDict sampleSentiment "English" ∧
    hasKey (analyze_text wEmptyReply "halo dunia") "error" = true ∧
    jLookup (analyze_text wEmptyReply "halo dunia") "kategori" = some (JValue.str "Unknown") ∧
    jLookup (analyze_text wEmptyReply "halo dunia") "confidence" = some (JValue.str "low") ∧
    jLookup (analyze_text wEmptyReply "halo dunia") "indikator_bahaya" = some (JValue.arr []) ∧
    jLookup (analyze_text wEmptyReply "halo dunia") "penjelasan" =
      some (JValue.str "Model did not return any response for this input.") :=
  empty_reply_fallback wEmptyReply "halo dunia" sampleSentiment langEn ""
    (by decide) (by decide) rfl rfl rfl rfl

/-- Counterexample to C4 as stated: the completion service returns the
non-blank unparseable content `"  I cannot help  "`, yet `penjelasan` is
the stripped text `"I cannot help"`, not the returned content verbatim. -/
theorem unparseable_reply_not_verbatim_cex :
    wPaddedReply.completion (system_prompt "English") "halo dunia" =
      Except.ok "  I cannot help  " ∧
    trimStr "  I cannot help  " ≠ "" ∧
    wPaddedReply.parseJson (trimStr "  I cannot help  ") = none ∧
    hasKey (analyze_text wPaddedReply "halo dunia") "error" = true ∧
    jLookup (analyze_text wPaddedReply "halo dunia") "penjelasan" =
      some (JValue.str "I cannot help") ∧
    "I cannot help" ≠ "  I cannot help  " :=
  ⟨rfl, by decide, rfl, by decide, rfl, by decide⟩

/-- C4 (amended): on valid input, when the completion service returns
content that is non-blank after stripping and fails to parse as JSON,
`analyze_text` returns a dictionary with `error` set in which `penjelasan`
is the stripped returned content — hence exactly the returned content
whenever that content carries no surrounding whitespace, as in the
claim's `"I cannot help"` example. -/
theorem unparseable_reply_preserved (w : World) (text : String)
    (s : SentimentResult) (l : LanguageResult) (c : String)
    (h1 : (trimStr text).length ≠ 0) (h2 : text.length ≤ 1000)
    (hs : w.getSentiment = Except.ok s) (hl : w.getLanguage = Except.ok l)
    (hc : w.completion (system_prompt (resolveLanguageName l text)) text =
      Except.ok c)
    (h0 : trimStr c ≠ "") (hp : w.parseJson (trimStr c) = none) :
    analyze_text w text =
      invalidJsonDict (trimStr c) s (resolveLanguageName l text) ∧
    hasKey (analyze_text w text) "error" = true ∧
    jLookup (analyze_text w text) "penjelasan" =
      some (JValue.str (trimStr c)) := by
  have ht : tryAnalyze w text =
      Except.ok (invalidJsonDict (trimStr c) s (resolveLanguageName l text)) := by
    simp [tryAnalyze, hs, hl, hc, h0, hp]
  have hx : analyze_text w text =
      invalidJsonDict (trimStr c) s (resolveLanguageName l text) := by
    rw [analyze_text_passes_validation w text h1 h2]
    simp [dispatchTry, ht]
  rw [hx]
  refine ⟨rfl, ?_, ?_⟩ <;> simp [invalidJsonDict, hasKey, jLookup]

/-- Witness for C4 (amended): the claim's own example, GPT content
`"I cannot help"` with no surrounding whitespace, preserved exactly. -/
theorem unparseable_reply_preserved_witness :
    analyze_text wInvalidReply "halo dunia" =
      invalidJsonDict (trimStr "I cannot help") sampleSentiment "English" ∧
    hasKey (analyze_text wInvalidReply "halo dunia") "error" = true ∧
    jLookup (analyze_text wInvalidReply "halo dunia") "penjelasan" =
      some (JValue.str (trimStr "I cannot help")) :=
  unparseable_reply_preserved wInvalidReply "halo dunia" sampleSentiment
    langEn "I cannot help" (by decide) (by decide) rfl rfl rfl (by decide) rfl

/-- Shape helper: once both Text Analytics calls succeed, the dictionary
produced by the `try`/`except` pair is an exception dictionary or one of
the three language-bearing dictionaries built with the resolved language
name. -/
theorem dispatchTry_shapes (w : World) (text : String) (s : SentimentResult)
    (l : LanguageResult)
    (hs : w.getSentiment = Except.ok s) (hl : w.getLanguage = Except.ok l) :
    (∃ e, dispatchTry w text = exceptionDict e) ∨
    dispatchTry w text = emptyResponseDict s (resolveLanguageName l text) ∨
    (∃ c : String, trimStr c ≠ "" ∧
      dispatchTry w text =
        invalidJsonDict (trimStr c) s (resolveLanguageName l text)) ∨
    (∃ fields, dispatchTry w text =
        successDict fields s (resolveLanguageName l text)) := by
  unfold dispatchTry tryAnalyze
  rw [hs, hl]
  dsimp only
  cases hc : w.completion (system_prompt (resolveLanguageName l text)) text with
  | error e => exact Or.inl ⟨e, rfl⟩
  | ok c =>
    dsimp only
    by_cases h0 : trimStr c = ""
    · rw [if_pos h0]
      exact Or.inr (Or.inl rfl)
    · rw [if_neg h0]
      cases hp : w.parseJson (trimStr c) with
      | none => exact Or.inr (Or.inr (Or.inl ⟨c, h0, rfl⟩))
      | some j =>
        cases j with
        | obj fields => exact Or.inr (Or.inr (Or.inr ⟨fields, rfl⟩))
        | str a => exact Or.inl ⟨_, rfl⟩
        | num a => exact Or.inl ⟨_, rfl⟩
        | bool a => exact Or.inl ⟨_, rfl⟩
        | null => exact Or.inl ⟨_, rfl⟩
        | arr a => exact Or.inl ⟨_, rfl⟩

/-- Counterexample to C5 as stated: valid text containing `"rekening"` with
the detector reporting `en`, but the classifier call raises; the exception
dictionary carries no `detected_language` key at all, so the final result's
`detected_language` is not `"Indonesian"`. -/
theorem indonesian_override_cex :
    lowerStr langEn.primary_language.iso6391_name = "en" ∧
    strContains (lowerStr "transfer ke rekening ini") "rekening" = true ∧
    (trimStr "transfer ke rekening ini").length ≠ 0 ∧
    ("transfer ke rekening ini").length ≤ 1000 ∧
    wCompletionFail.getLanguage = Except.ok langEn ∧
    jLookup (analyze_text wCompletionFail "transfer ke rekening ini")
      "detected_language" = none :=
  ⟨by decide, by decide, by decide, by decide, rfl, rfl⟩

set_option maxRecDepth 100000 in
/-- C5 (amended): on valid input whose detector code is `en` while the
lowercased text contains one of the Indonesian keywords, the language is
overridden to Indonesian before the prompt is built: the resolved name is
`"Indonesian"`, the system prompt sent to the classifier mandates
Indonesian output, and any `detected_language` field of the final result is
`"Indonesian"` (the field is absent exactly when the classifier phase
raised and the exception dictionary was returned). -/
theorem indonesian_override (w : World) (text : String) (s : SentimentResult)
    (l : LanguageResult)
    (h1 : (trimStr text).length ≠ 0) (h2 : text.length ≤ 1000)
    (hs : w.getSentiment = Except.ok s) (hl : w.getLanguage = Except.ok l)
    (hen : lowerStr l.primary_language.iso6391_name = "en")
    (hkw : indonesianKeywords.any (fun k => strContains (lowerStr text) k) = true) :
    resolveLanguageName l text = "Indonesian" ∧
    strContains (system_prompt (resolveLanguageName l text))
      "Your answer MUST be in language: **Indonesian**" = true ∧
    (jLookup (analyze_text w text) "detected_language" = none ∨
     jLookup (analyze_text w text) "detected_language" =
       some (JValue.str "Indonesian")) := by
  have hres : resolveLanguageName l text = "Indonesian" := by
    simp [resolveLanguageName, hen, hkw, langNameTable]
  refine ⟨hres, ?_, ?_⟩
  · rw [hres]
    decide
  · rw [analyze_text_passes_validation w text h1 h2]
    rcases dispatchTry_shapes w text s l hs hl with
      ⟨e, he⟩ | he | ⟨c, hc0, he⟩ | ⟨fields, he⟩
    · exact Or.inl (by rw [he]; simp [exceptionDict, jLookup])
    · rw [he, hres]
      exact Or.inr (by simp [emptyResponseDict, jLookup])
    · rw [he, hres]
      exact Or.inr (by simp [invalidJsonDict, jLookup])
    · rw [he, hres]
      exact Or.inr (by simp [successDict, jLookup])

/-- Witness for C5 (amended): `"transfer ke rekening ini"` with the
detector reporting English; the prompt mandates Indonesian and the
empty-reply result carries `detected_language = "Indonesian"`. -/
theorem indonesian_override_witness :
    resolveLanguageName langEn "transfer ke rekening ini" = "Indonesian" ∧
    strContains (system_prompt (resolveLanguageName langEn "transfer ke rekening ini"))
      "Your answer MUST be in language: **Indonesian**" = true ∧
    (jLookup (analyze_text wEmptyReply "transfer ke rekening ini")
        "detected_language" = none ∨
     jLookup (analyze_text wEmptyReply "transfer ke rekening ini")
        "detected_language" = some (JValue.str "Indonesian")) :=
  indonesian_override wEmptyReply "transfer ke rekening ini" sampleSentiment
    langEn (by decide) (by decide) rfl rfl (by decide) (by decide)

/-- C6: when the completion reply parses as a JSON object, missing keys
default in the final result: `kategori` to `"Unknown"`, `confidence` to
`"medium"`, `penjelasan` to `""`, `indikator_bahaya` to the empty array. -/
theorem parsed_defaults (w : World) (text : String) (s : SentimentResult)
    (l : LanguageResult) (c : String) (fields : List (String × JValue))
    (h1 : (trimStr text).length ≠ 0) (h2 : text.length ≤ 1000)
    (hs : w.getSentiment = Except.ok s) (hl : w.getLanguage = Except.ok l)
    (hc : w.completion (system_prompt (resolveLanguageName l text)) text =
      Except.ok c)
    (h0 : trimStr c ≠ "")
    (hp : w.parseJson (trimStr c) = some (JValue.obj fields)) :
    analyze_text w text = successDict fields s (resolveLanguageName l text) ∧
    (jLookup fields "kategori" = none →
      jLookup (analyze_text w text) "kategori" = some (JValue.str "Unknown")) ∧
    (jLookup fields "confidence" = none →
      jLookup (analyze_text w text) "confidence" = some (JValue.str "medium")) ∧
    (jLookup fields "penjelasan" = none →
      jLookup (analyze_text w text) "penjelasan" = some (JValue.str "")) ∧
    (jLookup fields "indikator_bahaya" = none →
      jLookup (analyze_text w text) "indikator_bahaya" = some (JValue.arr [])) := by
  have ht : tryAnalyze w text =
      Except.ok (successDict fields s (resolveLanguageName l text)) := by
    simp [tryAnalyze, hs, hl, hc, h0, hp]
  have hx : analyze_text w text = successDict fields s (resolveLanguageName l text) := by
    rw [analyze_text_passes_validation w text h1 h2]
    simp [dispatchTry, ht]
  rw [hx]
  refine ⟨rfl, ?_, ?_, ?_, ?_⟩ <;> intro hmiss <;>
    simp [successDict, jLookup, jGet, hmiss]

/-- Witness for C6: the reply `{"kategori": "Safe"}` with no other keys
yields `confidence="medium"`, `penjelasan=""`, `indikator_bahaya=[]`. -/
theorem parsed_defaults_witness :
    analyze_text wSafeJson "halo dunia" =
      successDict [("kategori", JValue.str "Safe")] sampleSentiment
        (resolveLanguageName langEn "halo dunia") ∧
    jLookup (analyze_text wSafeJson "halo dunia") "confidence" =
      some (JValue.str "medium") ∧
    jLookup (analyze_text wSafeJson "halo dunia") "penjelasan" =
      some (JValue.str "") ∧
    jLookup (analyze_text wSafeJson "halo dunia") "indikator_bahaya" =
      some (JValue.arr []) := by
  have h := parsed_defaults wSafeJson "halo dunia" sampleSentiment langEn
    "\x7b\"kategori\": \"Safe\"\x7d" [("kategori", JValue.str "Safe")]
    (by decide) (by decide) rfl rfl rfl (by decide) rfl
  exact ⟨h.1, h.2.2.1 rfl, h.2.2.2.1 rfl, h.2.2.2.2 rfl⟩

/-- Counterexample to C7 as stated: on valid non-empty input of at most
1000 characters, when the classifier call raises, the returned dictionary
contains neither `sentiment` nor `detected_language`. -/
theorem fields_always_present_cex :
    (trimStr "berita penting hari ini").length ≠ 0 ∧
    ("berita penting hari ini").length ≤ 1000 ∧
    jLookup (analyze_text wCompletionFail "berita penting hari ini")
      "sentiment" = none ∧
    jLookup (analyze_text wCompletionFail "berita penting hari ini")
      "detected_language" = none :=
  ⟨by decide, by decide, rfl, rfl⟩

/-- C7 (amended): on valid input, the result contains both `sentiment` and
`detected_language` for every classifier outcome that does not raise —
success, empty reply, or invalid JSON; when an exception is caught (a
raising call, or a JSON reply that is not an object) the error dictionary
omits both fields. -/
theorem fields_present_without_exception (w : World) (text : String)
    (s : SentimentResult) (l : LanguageResult) (c : String)
    (h1 : (trimStr text).length ≠ 0) (h2 : text.length ≤ 1000)
    (hs : w.getSentiment = Except.ok s) (hl : w.getLanguage = Except.ok l)
    (hc : w.completion (system_prompt (resolveLanguageName l text)) text =
      Except.ok c)
    (hnb : trimStr c = "" ∨ w.parseJson (trimStr c) = none ∨
      ∃ fields, w.parseJson (trimStr c) = some (JValue.obj fields)) :
    hasKey (analyze_text w text) "sentiment" = true ∧
    hasKey (analyze_text w text) "detected_language" = true := by
  rw [analyze_text_passes_validation w text h1 h2]
  by_cases h0 : trimStr c = ""
  · have ht : tryAnalyze w text =
        Except.ok (emptyResponseDict s (resolveLanguageName l text)) := by
      simp [tryAnalyze, hs, hl, hc, h0]
    simp [dispatchTry, ht, emptyResponseDict, hasKey, jLookup]
  · rcases hnb with h0x | hp | ⟨fields, hp⟩
    · exact absurd h0x h0
    · have ht : tryAnalyze w text =
          Except.ok (invalidJsonDict (trimStr c) s (resolveLanguageName l text)) := by
        simp [tryAnalyze, hs, hl, hc, h0, hp]
      simp [dispatchTry, ht, invalidJsonDict, hasKey, jLookup]
    · have ht : tryAnalyze w text =
          Except.ok (successDict fields s (resolveLanguageName l text)) := by
        simp [tryAnalyze, hs, hl, hc, h0, hp]
      simp [dispatchTry, ht, successDict, hasKey, jLookup]

/-- Witness for C7 (amended): an empty GPT reply on valid text still yields
both fields. -/
theorem fields_present_without_exception_witness :
    hasKey (analyze_text wEmptyReply "halo dunia") "sentiment" = true ∧
    hasKey (analyze_text wEmptyReply "halo dunia") "detected_language" = true :=
  fields_present_without_exception wEmptyReply "halo dunia" sampleSentiment
    langEn "" (by decide) (by decide) rfl rfl rfl (Or.inl rfl)

/-- Counterexample to C8 as stated: the sentiment call raises on valid
input, yet the endpoint returns HTTP 200 with `success=true` (a partial
success), not HTTP 500, because the exception dictionary carries a
`penjelasan` alongside `error`. -/
theorem transport_error_maps_to_500_cex :
    wSentimentFail.getSentiment = Except.error "network down" ∧
    (trimStr "berita penting").length ≠ 0 ∧
    ("berita penting").length ≤ 1000 ∧
    hasNonWhitespace "berita penting" = true ∧
    hasKey (analyze_text wSentimentFail "berita penting") "error" = true ∧
    api_analyze wSentimentFail "berita penting" = (200, true) ∧
    api_analyze wSentimentFail "berita penting" ≠ (500, false) :=
  ⟨rfl, by decide, by decide, by decide, by decide, by decide, by decide⟩

/-- C8 (amended): when an exception escapes the `try` block on valid input
(a raising call to either external service during the fetching or
classifying phase), the returned payload carries an `error`, but because
the exception dictionary also carries a generic `penjelasan` the HTTP layer
maps it to 200 partial success, not 500; only the validation errors, which
have no `penjelasan`, are mapped to 500. -/
theorem transport_error_partial_success (w : World) (text e : String)
    (h1 : (trimStr text).length ≠ 0) (h2 : text.length ≤ 1000)
    (h3 : hasNonWhitespace text = true)
    (ht : tryAnalyze w text = Except.error e) :
    analyze_text w text = exceptionDict e ∧
    hasKey (analyze_text w text) "error" = true ∧
    hasKey (analyze_text w text) "penjelasan" = true ∧
    api_analyze w text = (200, true) ∧
    api_analyze w text ≠ (500, false) := by
  have hx : analyze_text w text = exceptionDict e := by
    rw [analyze_text_passes_validation w text h1 h2]
    simp [dispatchTry, ht]
  have he : hasKey (analyze_text w text) "error" = true := by
    rw [hx]; simp [exceptionDict, hasKey, jLookup]
  have hpj : hasKey (analyze_text w text) "penjelasan" = true := by
    rw [hx]; simp [exceptionDict, hasKey, jLookup]
  have hapi : api_analyze w text = (200, true) := by
    simp [api_analyze, h3, mapResult, he, hpj]
  exact ⟨hx, he, hpj, hapi, by rw [hapi]; decide⟩

/-- Witness for C8 (amended): a raising completion call on valid text. -/
theorem transport_error_partial_success_witness :
    analyze_text wCompletionFail "berita penting" = exceptionDict "quota exceeded" ∧
    hasKey (analyze_text wCompletionFail "berita penting") "error" = true ∧
    hasKey (analyze_text wCompletionFail "berita penting") "penjelasan" = true ∧
    api_analyze wCompletionFail "berita penting" = (200, true) ∧
    api_analyze wCompletionFail "berita penting" ≠ (500, false) :=
  transport_error_partial_success wCompletionFail "berita penting"
    "quota exceeded" (by decide) (by decide) (by decide) rfl

/-- C9: `analyze_text` is a total function into result dictionaries — no
exception crosses its boundary — and any exception raised inside the
orchestration `try` block on validated input is converted into a
dictionary carrying `error` and `kategori="Error"`. -/
theorem exceptions_recovered (w : World) (text e : String)
    (h1 : (trimStr text).length ≠ 0) (h2 : text.length ≤ 1000)
    (ht : tryAnalyze w text = Except.error e) :
    analyze_text w text = exceptionDict e ∧
    hasKey (analyze_text w text) "error" = true ∧
    jLookup (analyze_text w text) "kategori" = some (JValue.str "Error") ∧
    jLookup (analyze_text w text) "penjelasan" =
      some (JValue.str "Unable to analyze text") := by
  have hx : analyze_text w text = exceptionDict e := by
    rw [analyze_text_passes_validation w text h1 h2]
    simp [dispatchTry, ht]
  rw [hx]
  refine ⟨rfl, ?_, ?_, ?_⟩ <;> simp [exceptionDict, hasKey, jLookup]

/-- Witness for C9: the raising sentiment call is recovered into the error
dictionary. -/
theorem exceptions_recovered_witness :
    analyze_text wSentimentFail "berita penting" = exceptionDict "network down" ∧
    hasKey (analyze_text wSentimentFail "berita penting") "error" = true ∧
    jLookup (analyze_text wSentimentFail "berita penting") "kategori" =
      some (JValue.str "Error") ∧
    jLookup (analyze_text wSentimentFail "berita penting") "penjelasan" =
      some (JValue.str "Unable to analyze text") :=
  exceptions_recovered wSentimentFail "berita penting" "network down"
    (by decide) (by decide) rfl

/-- C10: with the fixed configuration, two successive sentiment lookups
with identical text starting from any cache state not containing that text
invoke the transport exactly once: the first call is the single miss, the
second call is a hit returning the cached transport result; the cache stays
within its capacity of 100, the miss inserts at the most-recently-used
position evicting only entries beyond position 99 (least recently used),
and the hit leaves the cache unchanged.  (`_cached_detect_language` is the
same `lruStep` instance for language lookups.) -/
theorem sentiment_cache_single_transport_call
    (transport : String × String × String → SentimentResult)
    (cfg : AIConfig)
    (cache : List ((String × String × String) × SentimentResult))
    (text : String)
    (hmiss : lruFind cache (cfg.aiEndpoint, cfg.aiKey, text) = none)
    (hlen : cache.length ≤ 100) :
    (get_sentiment transport cfg cache text).2.2 +
      (get_sentiment transport cfg
        (get_sentiment transport cfg cache text).2.1 text).2.2 = 1 ∧
    (get_sentiment transport cfg
        (get_sentiment transport cfg cache text).2.1 text).1 =
      (get_sentiment transport cfg cache text).1 ∧
    (get_sentiment transport cfg cache text).1 =
      transport (cfg.aiEndpoint, cfg.aiKey, text) ∧
    (get_sentiment transport cfg cache text).2.1 =
      ((cfg.aiEndpoint, cfg.aiKey, text),
        transport (cfg.aiEndpoint, cfg.aiKey, text)) :: cache.take 99 ∧
    (get_sentiment transport cfg cache text).2.1.length ≤ 100 ∧
    (get_sentiment transport cfg
        (get_sentiment transport cfg cache text).2.1 text).2.1 =
      (get_sentiment transport cfg cache text).2.1 := by
  have hfirst : get_sentiment transport cfg cache text =
      (transport (cfg.aiEndpoint, cfg.aiKey, text),
       ((cfg.aiEndpoint, cfg.aiKey, text),
         transport (cfg.aiEndpoint, cfg.aiKey, text)) :: cache.take 99, 1) := by
    simp [get_sentiment, cached_analyze_sentiment, lruStep, hmiss,
      List.take_succ_cons]
  have hsecond : get_sentiment transport cfg
      (((cfg.aiEndpoint, cfg.aiKey, text),
        transport (cfg.aiEndpoint, cfg.aiKey, text)) :: cache.take 99) text =
      (transport (cfg.aiEndpoint, cfg.aiKey, text),
       ((cfg.aiEndpoint, cfg.aiKey, text),
         transport (cfg.aiEndpoint, cfg.aiKey, text)) :: cache.take 99, 0) := by
    simp [get_sentiment, cached_analyze_sentiment, lruStep, lruFind, lruRemove]
  rw [hfirst]
  dsimp only
  rw [hsecond]
  dsimp only
  refine ⟨rfl, rfl, rfl, rfl, ?_, rfl⟩
  have := List.length_take 99 cache
  simp only [List.length_cons, this]
  omega

/-- Witness for C10: a concrete miss-then-hit run from the empty cache. -/
theorem sentiment_cache_single_transport_call_witness :
    (get_sentiment fixedTransport sampleCfg [] "halo").2.2 +
      (get_sentiment fixedTransport sampleCfg
        (get_sentiment fixedTransport sampleCfg [] "halo").2.1 "halo").2.2 = 1 ∧
    (get_sentiment fixedTransport sampleCfg
        (get_sentiment fixedTransport sampleCfg [] "halo").2.1 "halo").1 =
      (get_sentiment fixedTransport sampleCfg [] "halo").1 ∧
    (get_sentiment fixedTransport sampleCfg [] "halo").1 =
      fixedTransport (sampleCfg.aiEndpoint, sampleCfg.aiKey, "halo") ∧
    (get_sentiment fixedTransport sampleCfg [] "halo").2.1 =
      ((sampleCfg.aiEndpoint, sampleCfg.aiKey, "halo"),
        fixedTransport (sampleCfg.aiEndpoint, sampleCfg.aiKey, "halo")) ::
        List.take 99 [] ∧
    (get_sentiment fixedTransport sampleCfg [] "halo").2.1.length ≤ 100 ∧
    (get_sentiment fixedTransport sampleCfg
        (get_sentiment fixedTransport sampleCfg [] "halo").2.1 "halo").2.1 =
      (get_sentiment fixedTransport sampleCfg [] "halo").2.1 :=
  sentiment_cache_single_transport_call fixedTransport sampleCfg [] "halo"
    rfl (by decide)
